import Mathlib

/-!
Shallow embedding of the speech-to-speech translator repository
(`model.py` and `app.py`) and proofs about its specification claims.

Python strings are modelled as Lean `String`; `str.strip`, `str.lower`,
`str.endswith` and `str.replace` are modelled by `pyStrip`, `pyLower`,
`pyEndsWith` and `pyReplace` below (ASCII-faithful).  External effects
(the Whisper/NLLB model invocations, gTTS, the filesystem, `ffmpeg`,
wall-clock time) are passed in as an explicit environment of oracles;
a Python exception raised by an external call is modelled as
`Except.error`.  Deleted file paths are collected in an explicit list so
that cleanup obligations can be stated.
-/

namespace S2ST

deriving instance DecidableEq for Except

/-- Python whitespace characters recognised by `str.strip()`. -/
def isPySpace (c : Char) : Bool :=
  c == ' ' || c == '\t' || c == '\n' || c == '\r' || c == '\x0b' || c == '\x0c'

/-- Model of Python `str.strip()`: drop whitespace from both ends. -/
def pyStrip (s : String) : String :=
  String.mk (((s.data.dropWhile isPySpace).reverse.dropWhile isPySpace).reverse)

/-- ASCII case folding of a single character, as Python `str.lower()` does on ASCII. -/
def pyLowerChar (c : Char) : Char :=
  if 'A' ≤ c ∧ c ≤ 'Z' then Char.ofNat (c.toNat + 32) else c

/-- Model of Python `str.lower()` (ASCII fragment, which covers all language names used). -/
def pyLower (s : String) : String :=
  String.mk (s.data.map pyLowerChar)

/-- Model of Python `str.endswith`. -/
def pyEndsWith (s suffix : String) : Bool :=
  suffix.data.isSuffixOf s.data

/-- Worker for `pyReplace`, with fuel bounded by the length of the subject string. -/
def replaceAux : Nat → List Char → List Char → List Char → List Char
  | 0, xs, _, _ => xs
  | _ + 1, [], _, _ => []
  | fuel + 1, x :: rest, pat, rep =>
    if pat ≠ [] ∧ pat.isPrefixOf (x :: rest) then
      rep ++ replaceAux fuel ((x :: rest).drop pat.length) pat rep
    else
      x :: replaceAux fuel rest pat rep

/-- Model of Python `str.replace(pat, rep)` for a nonempty pattern, as used with
`tts_file.replace(".mp3", ".wav")` in `app.py`. -/
def pyReplace (s pat rep : String) : String :=
  String.mk (replaceAux s.data.length s.data pat.data rep.data)

/-! ## Translation cache (`model.py`, `NLLBTranslator`) -/

/-- The translation cache is an `OrderedDict`: an association list in insertion
order, oldest entry first. -/
abbrev Cache := List (String × String)

/-- Membership test of an `OrderedDict` (`cache_key in self.translation_cache`)
together with value access: returns the value stored under the first matching key. -/
def cacheLookup : Cache → String → Option String
  | [], _ => none
  | (k, v) :: rest, key => if k = key then some v else cacheLookup rest key

/-- `OrderedDict.__setitem__`: update in place when the key is present,
otherwise append at the end (newest position). -/
def dictSet : Cache → String → String → Cache
  | [], k, v => [(k, v)]
  | (k0, v0) :: rest, k, v =>
    if k0 = k then (k0, v) :: rest else (k0, v0) :: dictSet rest k v

/-- Eviction step of `translate_text`: `if len(cache) > cache_size:
cache.popitem(last=False)` — drop the oldest (first) entry when over the bound. -/
def cacheEvict (c : Cache) (cacheSize : Nat) : Cache :=
  if c.length > cacheSize then c.tail else c

/-- The combined cache write performed on a translation-cache miss:
insert the new entry, then evict the oldest entry if over the bound. -/
def cacheAdd (c : Cache) (cacheSize : Nat) (k v : String) : Cache :=
  cacheEvict (dictSet c k v) cacheSize

/-- Cache key of `translate_text`:
`f"{source_lang}{target_lang}{text.strip().lower()}"` — the plain concatenation
of the two language names and the trimmed, case-folded text, with no separator. -/
def cache_key (source_lang target_lang text : String) : String :=
  source_lang ++ target_lang ++ pyLower (pyStrip text)

/-- The `lang_map` dictionary of `NLLBTranslator.translate_text`. -/
def nllb_lang_map (name : String) : Option String :=
  if name = "english" then some "eng_Latn"
  else if name = "hindi" then some "hin_Deva"
  else if name = "bengali" then some "ben_Beng"
  else if name = "tamil" then some "tam_Taml"
  else if name = "telugu" then some "tel_Telu"
  else if name = "marathi" then some "mar_Deva"
  else if name = "gujarati" then some "guj_Gujr"
  else if name = "kannada" then some "kan_Knda"
  else if name = "malayalam" then some "mal_Mlym"
  else if name = "punjabi" then some "pan_Guru"
  else if name = "odia" then some "ory_Orya"
  else if name = "assamese" then some "asm_Beng"
  else if name = "urdu" then some "urd_Arab"
  else none

/-- Mutable state of `NLLBTranslator` relevant to its observable behaviour:
the cache and its bound (set to 500 in `__init__`). -/
structure NLLBTranslator where
  translation_cache : Cache
  cache_size : Nat
deriving DecidableEq

/-- State of `NLLBTranslator` right after `__init__`. -/
def NLLBTranslator.init : NLLBTranslator :=
  { translation_cache := [], cache_size := 500 }

/-- Embedding of `NLLBTranslator.translate_text`.  The NLLB model invocation
(tokenizer + `model.generate` + decode) is the oracle `model`, taking the raw
text and the resolved source/target NLLB codes; a raised Python exception is
`Except.error`.  The source contains no `try`/`except` around the model call,
so an error propagates to the caller.  The returned `Bool` records whether the
model was invoked (call-count instrumentation). -/
def translate_text (tr : NLLBTranslator) (text source_lang target_lang : String)
    (model : String → String → String → Except String String) :
    Except String (NLLBTranslator × String × Bool) :=
  if pyStrip text = "" then .ok (tr, text, false)
  else
    match cacheLookup tr.translation_cache (cache_key source_lang target_lang text) with
    | some v => .ok (tr, v, false)
    | none =>
      match model text ((nllb_lang_map (pyLower source_lang)).getD "eng_Latn")
          ((nllb_lang_map (pyLower target_lang)).getD "hin_Deva") with
      | .error e => .error e
      | .ok translated =>
        .ok ({ tr with translation_cache := cacheAdd tr.translation_cache tr.cache_size (cache_key source_lang target_lang text) translated }, translated, true)

/-! ## ASR model selection (`model.py`, `LowLatencyTranslator.speech_to_text`) -/

/-- Which ASR variant serves a request: the model tier (`"tiny"` for the fast
English model, `"medium"` for the stronger one), the forced language hint
passed to `model.generate` (or `none` for auto-detect), and the task. -/
structure AsrChoice where
  model_type : String
  forced_language : Option String
  forced_task : String
deriving DecidableEq

/-- The model-selection branch at the top of `speech_to_text`:
`hindi` (case-insensitively) uses the medium model with hint `"hi"`;
`english` uses the tiny model with hint `"en"`; every other configured
language uses the medium model with no forced language. -/
def asr_model_choice (source_lang : String) : AsrChoice :=
  if pyLower source_lang = "hindi" then
    { model_type := "medium", forced_language := some "hi", forced_task := "transcribe" }
  else if pyLower source_lang = "english" then
    { model_type := "tiny", forced_language := some "en", forced_task := "transcribe" }
  else
    { model_type := "medium", forced_language := none, forced_task := "transcribe" }

/-- Shared mutable state of `LowLatencyTranslator` relevant to the claims. -/
structure LowLatencyTranslator where
  source_lang : String
  target_lang : String
  translator : NLLBTranslator
deriving DecidableEq

/-- State of `LowLatencyTranslator` right after `__init__`. -/
def LowLatencyTranslator.init : LowLatencyTranslator :=
  { source_lang := "english", target_lang := "hindi", translator := NLLBTranslator.init }

/-! ## Environment of external oracles -/

/-- Oracles for every external effect reachable from the processing handlers.
`asr_gen` is the Whisper generate-and-decode step (its outcome may depend on
which model variant was selected); `nllb_model` the NLLB invocation;
`tts_file` the gTTS synthesis (returning `none` on failure, as
`text_to_speech_file` catches its own exceptions); `file_exists` is
`os.path.exists`; `ffmpeg_ok` / `extract_ok` tell whether the two
`subprocess.run(..., check=True)` invocations succeed; `temp_wav_path` is the
name handed out by `tempfile.NamedTemporaryFile` in `process_video_file`. -/
structure Env where
  load_ok : Bool
  asr_gen : AsrChoice → Except String String
  nllb_model : String → String → String → Except String String
  tts_file : String → String → Option String
  file_exists : String → Bool
  ffmpeg_ok : Bool
  extract_ok : Bool
  now : Nat
  clock : String
  temp_wav_path : String

/-- Embedding of `LowLatencyTranslator.speech_to_text`: select the model
variant, invoke it, return the stripped transcription; every exception inside
the `try` is caught and converted to the empty string. -/
def speech_to_text (t : LowLatencyTranslator) (env : Env) : String :=
  let choice := asr_model_choice t.source_lang
  match env.asr_gen choice with
  | .ok transcription => pyStrip transcription
  | .error _ => ""

/-! ## Session state and history (`app.py`, `AudioProcessor`) -/

/-- A history entry built by `add_to_history`. -/
structure HistoryItem where
  original : String
  translated : String
  timestamp : String
  source_lang : String
  target_lang : String
deriving DecidableEq

/-- The per-session state dictionary created by `get_session_state`. -/
structure SessionState where
  current_transcription : String
  current_translation : String
  last_update_time : Nat
  translation_history : List HistoryItem
  max_history_items : Nat
deriving DecidableEq

/-- Result of `AudioProcessor.get_session_state`. -/
def get_session_state : SessionState :=
  { current_transcription := "", current_translation := "", last_update_time := 0,
    translation_history := [], max_history_items := 10 }

/-- Mutable fields of `AudioProcessor` (the shared `LowLatencyTranslator`
instance is aliased by the processor and by the global singleton, so it is a
single field here). -/
structure AudioProcessor where
  translator : LowLatencyTranslator
  status : String
  current_source_lang : String
  current_target_lang : String
  last_tts_file : Option String
deriving DecidableEq

/-- State of `AudioProcessor` right after `__init__`. -/
def AudioProcessor.init : AudioProcessor :=
  { translator := LowLatencyTranslator.init, status := "connected",
    current_source_lang := "english", current_target_lang := "hindi",
    last_tts_file := none }

/-- Embedding of `cleanup_previous_tts`: when the previous TTS path is set
(non-empty) and the file exists, unlink it and clear the field.  The second
component collects the deleted paths. -/
def cleanup_previous_tts (p : AudioProcessor) (env : Env) :
    AudioProcessor × List String :=
  match p.last_tts_file with
  | some f =>
    if f ≠ "" ∧ env.file_exists f = true then
      ({ p with last_tts_file := none }, [f])
    else (p, [])
  | none => (p, [])

/-- Embedding of `AudioProcessor.change_languages`: sets the shared
translator's and the processor's language fields verbatim (the body cannot
raise, so the `except` branch is dead) and reports success. -/
def change_languages (p : AudioProcessor) (source_lang target_lang : String) :
    AudioProcessor × String × String :=
  let t := { p.translator with source_lang := source_lang, target_lang := target_lang }
  let p := { p with translator := t,
                    current_source_lang := source_lang,
                    current_target_lang := target_lang }
  (p, "Languages changed to " ++ source_lang ++ " to " ++ target_lang, "connected")

/-- Embedding of the `save_languages` handler in `create_interface`:
lowercases the source name only (`src = src.lower()`), delegates to
`change_languages`, then stores `src` and the verbatim `tgt` again on the
processor along with the returned status. -/
def save_languages (p : AudioProcessor) (src tgt : String) : AudioProcessor :=
  let src := pyLower src
  let r := change_languages p src tgt
  { r.1 with current_source_lang := src, current_target_lang := tgt,
             status := r.2.2 }

/-- The history item constructed inside `add_to_history`. -/
def mk_history_item (p : AudioProcessor) (original translated ts : String) :
    HistoryItem :=
  { original := original, translated := translated, timestamp := ts,
    source_lang := p.current_source_lang, target_lang := p.current_target_lang }

/-- Embedding of `AudioProcessor.add_to_history`: insert the new item at the
front, then `pop()` the last (oldest) item when the length exceeds
`max_history_items`. -/
def add_to_history (p : AudioProcessor) (state : SessionState)
    (original translated ts : String) : SessionState :=
  let h := mk_history_item p original translated ts :: state.translation_history
  let h := if h.length > state.max_history_items then h.dropLast else h
  { state with translation_history := h }

/-- Return record of the processing handlers: the processor and session state
after the call, the user message, the status string, the returned TTS handle,
and the list of file paths unlinked during the call. -/
structure PipelineResult where
  processor : AudioProcessor
  state : SessionState
  message : String
  status : String
  tts_out : Option String
  deleted : List String
deriving DecidableEq

/-- Embedding of `AudioProcessor.process_audio_file`.  Exceptions raised by
external calls inside the `try` (audio loading, the NLLB model, the `ffmpeg`
conversion run with `check=True`) reach the outer `except`, which sets the
`error` status and returns the session state as already mutated at that
point.  ASR and TTS failures do not raise (their wrappers catch). -/
def process_audio_file (p : AudioProcessor) (state : SessionState) (env : Env)
    (file_path : Option String) : PipelineResult :=
  if file_path.getD "" = "" then
    { processor := p, state := state, message := "Please select an audio file first.",
      status := "error", tts_out := none, deleted := [] }
  else
    let p := { p with status := "processing" }
    let cl := cleanup_previous_tts p env
    let p := cl.1
    let del := cl.2
    if env.load_ok = false then
      { processor := { p with status := "error" }, state := state,
        message := "Error processing audio: load failed", status := "error",
        tts_out := none, deleted := del }
    else
      let p := { p with translator := { p.translator with source_lang := p.current_source_lang } }
      let transcription := speech_to_text p.translator env
      if transcription ≠ "" ∧ pyStrip transcription ≠ "" then
        match translate_text p.translator.translator transcription
            p.translator.source_lang p.translator.target_lang env.nllb_model with
        | .error e =>
          { processor := { p with status := "error" }, state := state,
            message := "Error processing audio: " ++ e, status := "error",
            tts_out := none, deleted := del }
        | .ok (ntr, translated, _invoked) =>
          let p := { p with translator := { p.translator with translator := ntr } }
          let state := { state with current_transcription := transcription,
                                    current_translation := translated,
                                    last_update_time := env.now }
          let state := add_to_history p state transcription translated env.clock
          let tts0 := env.tts_file translated p.translator.target_lang
          let p := { p with last_tts_file := tts0 }
          match tts0 with
          | some f =>
            if f ≠ "" ∧ env.file_exists f = true then
              if pyEndsWith f ".wav" = false then
                let wav := pyReplace f ".mp3" ".wav"
                if env.ffmpeg_ok = false then
                  { processor := { p with status := "error" }, state := state,
                    message := "Error processing audio: ffmpeg failed",
                    status := "error", tts_out := none, deleted := del }
                else if env.file_exists wav = true then
                  { processor := { p with status := "connected", last_tts_file := some wav },
                    state := state, message := "Audio file processed successfully!",
                    status := "connected", tts_out := some wav, deleted := del }
                else
                  { processor := { p with status := "connected" }, state := state,
                    message := "Audio file processed successfully!",
                    status := "connected", tts_out := some f, deleted := del }
              else
                { processor := { p with status := "connected" }, state := state,
                  message := "Audio file processed successfully!",
                  status := "connected", tts_out := some f, deleted := del }
            else
              { processor := { p with status := "connected" }, state := state,
                message := "Audio file processed successfully!",
                status := "connected", tts_out := none, deleted := del }
          | none =>
            { processor := { p with status := "connected" }, state := state,
              message := "Audio file processed successfully!",
              status := "connected", tts_out := none, deleted := del }
      else
        { processor := { p with status := "connected" }, state := state,
          message := "Audio file processed successfully!",
          status := "connected", tts_out := none, deleted := del }

/-- Embedding of `AudioProcessor.process_video_file`: extract the audio track
into a fresh temporary file via `ffmpeg` (`check=True`: a failure raises and
reaches the outer `except` before the unlink), delegate to
`process_audio_file` (which cannot raise), then unlink the temporary file if
it exists. -/
def process_video_file (p : AudioProcessor) (state : SessionState) (env : Env)
    (file_path : Option String) : PipelineResult :=
  if file_path.getD "" = "" then
    { processor := p, state := state, message := "Please select a video file first.",
      status := "error", tts_out := none, deleted := [] }
  else
    let p := { p with status := "processing" }
    let cl := cleanup_previous_tts p env
    let p := cl.1
    let del1 := cl.2
    let audio_path := env.temp_wav_path
    if env.extract_ok = false then
      { processor := { p with status := "error" }, state := state,
        message := "Error processing video: ffmpeg failed", status := "error",
        tts_out := none, deleted := del1 }
    else
      let r := process_audio_file p state env (some audio_path)
      let del3 := if env.file_exists audio_path = true then [audio_path] else []
      { processor := { r.processor with status := "connected" }, state := r.state,
        message := "Video file processed successfully!", status := "connected",
        tts_out := r.tts_out, deleted := del1 ++ r.deleted ++ del3 }

/-! ## Concrete demonstration environment used by witnesses and counterexamples -/

/-- Concrete oracle environment: audio loading succeeds, ASR hears `"hello"`,
the NLLB model answers `"namaste"`, gTTS writes `out.mp3`, exactly `out.mp3`
and `tmp.wav` exist on disk, the `ffmpeg` conversion fails, audio-track
extraction succeeds. -/
def demoEnv : Env :=
  { load_ok := true
    asr_gen := fun _ => .ok "hello"
    nllb_model := fun _ _ _ => .ok "namaste"
    tts_file := fun _ _ => some "out.mp3"
    file_exists := fun s => s == "out.mp3" || s == "tmp.wav"
    ffmpeg_ok := false
    extract_ok := true
    now := 1
    clock := "00:00:00"
    temp_wav_path := "tmp.wav" }

/-- Variant of `demoEnv` in which ASR hears only whitespace. -/
def demoEnvWhitespace : Env :=
  { demoEnv with asr_gen := fun _ => .ok "   " }

/-- Variant of `demoEnv` in which audio-track extraction fails. -/
def demoEnvNoExtract : Env :=
  { demoEnv with extract_ok := false }

/-! ## Helper lemmas -/

theorem string_append_left_cancel (a b c : String) (h : a ++ b = a ++ c) : b = c := by
  have hd : (a ++ b).data = (a ++ c).data := congrArg String.data h
  rw [String.data_append, String.data_append] at hd
  exact String.ext (List.append_cancel_left hd)

@[simp]
theorem cleanup_previous_tts_translator (p : AudioProcessor) (env : Env) :
    (cleanup_previous_tts p env).1.translator = p.translator := by
  unfold cleanup_previous_tts
  cases p.last_tts_file with
  | none => rfl
  | some f => by_cases hc : f ≠ "" ∧ env.file_exists f = true <;> simp [hc]

@[simp]
theorem cleanup_previous_tts_source (p : AudioProcessor) (env : Env) :
    (cleanup_previous_tts p env).1.current_source_lang = p.current_source_lang := by
  unfold cleanup_previous_tts
  cases p.last_tts_file with
  | none => rfl
  | some f => by_cases hc : f ≠ "" ∧ env.file_exists f = true <;> simp [hc]

@[simp]
theorem cleanup_previous_tts_target (p : AudioProcessor) (env : Env) :
    (cleanup_previous_tts p env).1.current_target_lang = p.current_target_lang := by
  unfold cleanup_previous_tts
  cases p.last_tts_file with
  | none => rfl
  | some f => by_cases hc : f ≠ "" ∧ env.file_exists f = true <;> simp [hc]

@[simp]
theorem cleanup_previous_tts_status (p : AudioProcessor) (env : Env) :
    (cleanup_previous_tts p env).1.status = p.status := by
  unfold cleanup_previous_tts
  cases p.last_tts_file with
  | none => rfl
  | some f => by_cases hc : f ≠ "" ∧ env.file_exists f = true <;> simp [hc]

/-! ## Claim C2 — translation model failure handling -/

/-- Claim C2, counterexample: with a failing model oracle, `translate_text`
on the non-whitespace text `"hello"` propagates the exception instead of
returning `"hello"`; the caller observes `Except.error`, so an exception does
escape the operation. -/
theorem claim_c2_counterexample :
    translate_text NLLBTranslator.init "hello" "english" "hindi"
      (fun _ _ _ => Except.error "model failure") = Except.error "model failure" := by
  decide

/-- Claim C2 (amended): `translate_text` contains no handler around the model
invocation, so on any non-whitespace text not already cached, a model error
propagates unchanged to the caller; the operation does not return the original
text. -/
theorem claim_c2 (tr : NLLBTranslator) (text src tgt e : String)
    (h1 : pyStrip text ≠ "")
    (h2 : cacheLookup tr.translation_cache (cache_key src tgt text) = none) :
    translate_text tr text src tgt (fun _ _ _ => Except.error e) = Except.error e := by
  unfold translate_text
  simp [h1, h2]

/-- Claim C2, witness: the amended theorem applied at a concrete input. -/
theorem claim_c2_witness :
    pyStrip "hello" ≠ ""
    ∧ cacheLookup NLLBTranslator.init.translation_cache
        (cache_key "english" "hindi" "hello") = none
    ∧ translate_text NLLBTranslator.init "hello" "english" "hindi"
        (fun _ _ _ => Except.error "boom") = Except.error "boom" :=
  ⟨by decide, by decide,
    claim_c2 NLLBTranslator.init "hello" "english" "hindi" "boom" (by decide) (by decide)⟩

/-! ## Claim C7 — ASR model-variant selection -/

/-- Claim C7: `speech_to_text` selects the fast tiny model with hint `"en"`
when the configured source language case-folds to `english`; the medium model
with hint `"hi"` when it case-folds to `hindi`; and the medium model with no
forced language (auto-detect) for every other source language. -/
theorem claim_c7 (lang : String) :
    (pyLower lang = "english" →
      asr_model_choice lang =
        { model_type := "tiny", forced_language := some "en", forced_task := "transcribe" })
    ∧ (pyLower lang = "hindi" →
      asr_model_choice lang =
        { model_type := "medium", forced_language := some "hi", forced_task := "transcribe" })
    ∧ (pyLower lang ≠ "english" → pyLower lang ≠ "hindi" →
      asr_model_choice lang =
        { model_type := "medium", forced_language := none, forced_task := "transcribe" }) := by
  refine ⟨fun h => ?_, fun h => ?_, fun h1 h2 => ?_⟩ <;>
    simp [asr_model_choice, *]

/-- Claim C7, witness: the three selection branches exercised at `"English"`,
`"HINDI"` and `"tamil"`. -/
theorem claim_c7_witness :
    (pyLower "English" = "english"
      ∧ asr_model_choice "English" =
        { model_type := "tiny", forced_language := some "en", forced_task := "transcribe" })
    ∧ (pyLower "HINDI" = "hindi"
      ∧ asr_model_choice "HINDI" =
        { model_type := "medium", forced_language := some "hi", forced_task := "transcribe" })
    ∧ (pyLower "tamil" ≠ "english" ∧ pyLower "tamil" ≠ "hindi"
      ∧ asr_model_choice "tamil" =
        { model_type := "medium", forced_language := none, forced_task := "transcribe" }) :=
  ⟨⟨by decide, (claim_c7 "English").1 (by decide)⟩,
   ⟨by decide, (claim_c7 "HINDI").2.1 (by decide)⟩,
   ⟨by decide, by decide, (claim_c7 "tamil").2.2 (by decide) (by decide)⟩⟩

/-! ## Claim C9 — language-change normalization -/

/-- Claim C9, counterexample: `save_languages` lowercases only the source
name, so the calls with `("English", "Hindi")` and `("english", "hindi")`
store different target-language fields (`"Hindi"` versus `"hindi"`) on both
the session and the shared translator: the resulting configurations are not
equal. -/
theorem claim_c9_counterexample :
    (save_languages AudioProcessor.init "English" "Hindi").current_target_lang = "Hindi"
    ∧ (save_languages AudioProcessor.init "english" "hindi").current_target_lang = "hindi"
    ∧ (save_languages AudioProcessor.init "English" "Hindi").translator.target_lang = "Hindi"
    ∧ (save_languages AudioProcessor.init "english" "hindi").translator.target_lang = "hindi"
    ∧ ("Hindi" : String) ≠ "hindi" := by
  decide

/-- Claim C9 (amended): the source-language name is case-insensitive — two
`save_languages` calls whose source names case-fold equally and whose target
spellings are identical produce equal configurations — but the target name is
stored verbatim (never case-folded) in the session and shared translator
fields, so `("English", "Hindi")` and `("english", "hindi")` differ in the
stored target. -/
theorem claim_c9 :
    (∀ (p : AudioProcessor) (s1 s2 t : String), pyLower s1 = pyLower s2 →
      save_languages p s1 t = save_languages p s2 t)
    ∧ (∀ (p : AudioProcessor) (s t : String),
      (save_languages p s t).current_source_lang = pyLower s
      ∧ (save_languages p s t).translator.source_lang = pyLower s
      ∧ (save_languages p s t).current_target_lang = t
      ∧ (save_languages p s t).translator.target_lang = t) := by
  constructor
  · intro p s1 s2 t h
    unfold save_languages change_languages
    rw [h]
  · intro p s t
    exact ⟨rfl, rfl, rfl, rfl⟩

/-- Claim C9, witness: the amended theorem applied with source spellings
`"English"` and `"english"` and a fixed target spelling. -/
theorem claim_c9_witness :
    pyLower "English" = pyLower "english"
    ∧ save_languages AudioProcessor.init "English" "Hindi"
      = save_languages AudioProcessor.init "english" "Hindi" :=
  ⟨by decide, claim_c9.1 AudioProcessor.init "English" "english" "Hindi" (by decide)⟩

/-! ## Claim C10 — cache-key compositionality -/

/-- Claim C10, counterexample: the cache key concatenates its three components
with no separator, so the two distinct (source, target, text) triples
`("englishh", "indi", "text")` and `("english", "hindi", "text")` map to the
same cache key. -/
theorem claim_c10_counterexample :
    cache_key "englishh" "indi" "text" = cache_key "english" "hindi" "text"
    ∧ (("englishh", "indi", "text") : String × String × String)
      ≠ ("english", "hindi", "text") := by
  decide

/-- Claim C10 (amended): the cache key is the separator-less concatenation of
source language, target language, and trimmed case-folded text; two calls
share a cache entry exactly when these concatenations coincide, which can
happen for distinct triples.  For a fixed source/target pair, the keys of two
texts coincide exactly when their normalized texts coincide. -/
theorem claim_c10 :
    (∀ s t x : String, cache_key s t x = s ++ t ++ pyLower (pyStrip x))
    ∧ (∀ s t x y : String,
      cache_key s t x = cache_key s t y ↔ pyLower (pyStrip x) = pyLower (pyStrip y)) := by
  constructor
  · intro s t x
    rfl
  · intro s t x y
    constructor
    · intro h
      exact string_append_left_cancel (s ++ t) _ _
        (by simpa [cache_key, String.append_assoc] using h)
    · intro h
      simp [cache_key, h]

/-- Claim C10, witness: the amended key characterization applied at concrete
inputs whose raw texts differ only by trimming and case. -/
theorem claim_c10_witness :
    cache_key "english" "hindi" " HELLO " = cache_key "english" "hindi" "hello"
    ∧ pyLower (pyStrip " HELLO ") = pyLower (pyStrip "hello") :=
  ⟨by decide, (claim_c10.2 "english" "hindi" " HELLO " "hello").mp (by decide)⟩

/-! ## Cache lemmas -/

theorem cacheLookup_append_of_none (c1 c2 : Cache) (k : String)
    (h : cacheLookup c1 k = none) :
    cacheLookup (c1 ++ c2) k = cacheLookup c2 k := by
  induction c1 with
  | nil => rfl
  | cons e rest ih =>
    obtain ⟨k0, v0⟩ := e
    by_cases hk : k0 = k
    · simp [cacheLookup, hk] at h
    · simp only [cacheLookup, hk, if_false, List.cons_append] at h ⊢
      exact ih h

theorem cacheLookup_cons_none (k0 v0 : String) (rest : Cache) (k : String)
    (h : cacheLookup ((k0, v0) :: rest) k = none) :
    k0 ≠ k ∧ cacheLookup rest k = none := by
  by_cases hk : k0 = k
  · simp [cacheLookup, hk] at h
  · simp only [cacheLookup, hk, if_false] at h
    exact ⟨hk, h⟩

theorem dictSet_of_none (c : Cache) (k v : String)
    (h : cacheLookup c k = none) :
    dictSet c k v = c ++ [(k, v)] := by
  induction c with
  | nil => rfl
  | cons e rest ih =>
    obtain ⟨k0, v0⟩ := e
    obtain ⟨hk, hrest⟩ := cacheLookup_cons_none k0 v0 rest k h
    simp only [dictSet, hk, if_false, List.cons_append]
    rw [ih hrest]

theorem cacheLookup_eq_none_of_not_mem (c : Cache) (k : String)
    (h : k ∉ c.map Prod.fst) : cacheLookup c k = none := by
  induction c with
  | nil => rfl
  | cons e rest ih =>
    obtain ⟨k0, v0⟩ := e
    simp only [List.map_cons, List.mem_cons, not_or] at h
    have hk : k0 ≠ k := fun hh => h.1 hh.symm
    simp only [cacheLookup, hk, if_false]
    exact ih h.2

theorem cacheLookup_of_mem_nodup (c : Cache) (q : String × String)
    (hn : (c.map Prod.fst).Nodup) (hm : q ∈ c) :
    cacheLookup c q.1 = some q.2 := by
  induction c with
  | nil => simp at hm
  | cons e rest ih =>
    simp only [List.map_cons, List.nodup_cons] at hn
    rcases List.mem_cons.mp hm with he | hr
    · subst he
      simp [cacheLookup]
    · have hne : e.1 ≠ q.1 := by
        intro hh
        exact hn.1 (hh ▸ List.mem_map_of_mem Prod.fst hr)
      obtain ⟨k0, v0⟩ := e
      simp only [cacheLookup, hne, if_false]
      exact ih hn.2 hr

theorem cacheAdd_of_lt (c : Cache) (cs : Nat) (k v : String)
    (hfresh : cacheLookup c k = none) (hlen : c.length + 1 ≤ cs) :
    cacheAdd c cs k v = c ++ [(k, v)] := by
  unfold cacheAdd cacheEvict
  rw [dictSet_of_none c k v hfresh]
  have hng : ¬ (c ++ [(k, v)]).length > cs := by
    simp only [List.length_append, List.length_singleton]
    omega
  rw [if_neg hng]

theorem cacheAdd_of_full (c : Cache) (cs : Nat) (k v : String)
    (hfresh : cacheLookup c k = none) (hlen : c.length = cs) (hcs : 0 < cs) :
    cacheAdd c cs k v = c.tail ++ [(k, v)] := by
  unfold cacheAdd cacheEvict
  rw [dictSet_of_none c k v hfresh]
  have hgt : (c ++ [(k, v)]).length > cs := by
    simp only [List.length_append, List.length_singleton]
    omega
  simp only [hgt, if_true]
  cases c with
  | nil => simp at hlen; omega
  | cons a as => simp

theorem dictSet_length_le (c : Cache) (k v : String) :
    (dictSet c k v).length ≤ c.length + 1 := by
  induction c with
  | nil => simp [dictSet]
  | cons e rest ih =>
    obtain ⟨k0, v0⟩ := e
    by_cases hk : k0 = k
    · simp only [dictSet, hk, if_true]
      simp
    · simp only [dictSet, hk, if_false]
      simp
      omega

theorem cacheAdd_length_le (c : Cache) (cs : Nat) (k v : String)
    (h : c.length ≤ cs) : (cacheAdd c cs k v).length ≤ cs := by
  unfold cacheAdd cacheEvict
  have hd := dictSet_length_le c k v
  by_cases hgt : (dictSet c k v).length > cs
  · simp only [hgt, if_true, List.length_tail]
    omega
  · simp only [hgt, if_false]
    omega

theorem cacheLookup_cacheAdd_self (c : Cache) (cs : Nat) (k v : String)
    (hfresh : cacheLookup c k = none) (hcs : 0 < cs) :
    cacheLookup (cacheAdd c cs k v) k = some v := by
  unfold cacheAdd cacheEvict
  rw [dictSet_of_none c k v hfresh]
  by_cases hgt : (c ++ [(k, v)]).length > cs
  · simp only [hgt, if_true]
    cases c with
    | nil => simp at hgt; omega
    | cons a as =>
      obtain ⟨k0, v0⟩ := a
      obtain ⟨_, hrest⟩ := cacheLookup_cons_none k0 v0 as k hfresh
      simp only [List.cons_append, List.tail_cons]
      rw [cacheLookup_append_of_none as [(k, v)] k hrest]
      simp [cacheLookup]
  · simp only [hgt, if_false]
    rw [cacheLookup_append_of_none c [(k, v)] k hfresh]
    simp [cacheLookup]

theorem foldl_cacheAdd_of_le (cs : Nat) (ps : List (String × String)) :
    ∀ c : Cache,
      c.length + ps.length ≤ cs →
      (∀ q ∈ ps, cacheLookup c q.1 = none) →
      (ps.map Prod.fst).Nodup →
      List.foldl (fun acc q => cacheAdd acc cs q.1 q.2) c ps = c ++ ps := by
  induction ps with
  | nil =>
    intro c _ _ _
    simp
  | cons q rest ih =>
    intro c hlen hfresh hnd
    simp only [List.length_cons] at hlen
    simp only [List.map_cons, List.nodup_cons] at hnd
    have hfq : cacheLookup c q.1 = none := hfresh q (List.mem_cons_self q rest)
    have hstep : cacheAdd c cs q.1 q.2 = c ++ [q] := by
      have := cacheAdd_of_lt c cs q.1 q.2 hfq (by omega)
      simpa using this
    rw [List.foldl_cons, hstep, ih (c ++ [q]) ?_ ?_ hnd.2]
    · simp
    · simp only [List.length_append, List.length_singleton]
      omega
    · intro r hr
      rw [cacheLookup_append_of_none c [q] r.1 (hfresh r (List.mem_cons_of_mem q hr))]
      have hne : q.1 ≠ r.1 := by
        intro hh
        exact hnd.1 (hh ▸ List.mem_map_of_mem Prod.fst hr)
      obtain ⟨qk, qv⟩ := q
      simp only [cacheLookup] at hne ⊢
      simp [hne]

/-! ## Claim C1 — cache-hit determinism of repeated translations -/

/-- Claim C1, counterexample: the texts `" "` and `"  "` have the same
normalized (trimmed, case-folded) form and are passed with the same language
pair, yet the two successive `translate_text` calls return the two distinct
original strings: whitespace-only text takes the early-return path and is
never cached, so the second call does not return the value returned by the
first. -/
theorem claim_c1_counterexample :
    pyLower (pyStrip " ") = pyLower (pyStrip "  ")
    ∧ translate_text NLLBTranslator.init " " "english" "hindi"
        (fun _ _ _ => Except.ok "x") = Except.ok (NLLBTranslator.init, " ", false)
    ∧ translate_text NLLBTranslator.init "  " "english" "hindi"
        (fun _ _ _ => Except.ok "x") = Except.ok (NLLBTranslator.init, "  ", false)
    ∧ (" " : String) ≠ "  " := by
  decide

/-- Claim C1 (amended): for texts whose trimmed form is nonempty, a second
`translate_text` call with the same normalized text and the same language
strings returns exactly the string returned by the first call, leaves the
cache unchanged, and does not invoke the translation model (its model oracle
is irrelevant and the invocation flag is `false`). -/
theorem claim_c1 (tr : NLLBTranslator) (t1 t2 src tgt : String)
    (m1 m2 : String → String → String → Except String String)
    (tr1 : NLLBTranslator) (r1 : String) (b1 : Bool)
    (hcs : 0 < tr.cache_size)
    (h1 : pyStrip t1 ≠ "") (h2 : pyStrip t2 ≠ "")
    (hnorm : pyLower (pyStrip t1) = pyLower (pyStrip t2))
    (hfirst : translate_text tr t1 src tgt m1 = Except.ok (tr1, r1, b1)) :
    translate_text tr1 t2 src tgt m2 = Except.ok (tr1, r1, false) := by
  have hkey : cache_key src tgt t2 = cache_key src tgt t1 := by
    unfold cache_key
    rw [hnorm]
  have hhit : cacheLookup tr1.translation_cache (cache_key src tgt t1) = some r1 := by
    unfold translate_text at hfirst
    rw [if_neg h1] at hfirst
    cases hl : cacheLookup tr.translation_cache (cache_key src tgt t1) with
    | some v =>
      rw [hl] at hfirst
      simp only [Except.ok.injEq, Prod.mk.injEq] at hfirst
      obtain ⟨htr, hr, _⟩ := hfirst
      rw [← htr, ← hr]
      exact hl
    | none =>
      rw [hl] at hfirst
      cases hm : m1 t1 ((nllb_lang_map (pyLower src)).getD "eng_Latn")
          ((nllb_lang_map (pyLower tgt)).getD "hin_Deva") with
      | error e =>
        rw [hm] at hfirst
        simp at hfirst
      | ok translated =>
        rw [hm] at hfirst
        simp only [Except.ok.injEq, Prod.mk.injEq] at hfirst
        obtain ⟨htr, hr, _⟩ := hfirst
        rw [← htr, ← hr]
        exact cacheLookup_cacheAdd_self tr.translation_cache tr.cache_size
          (cache_key src tgt t1) translated hl hcs
  unfold translate_text
  rw [if_neg h2, hkey, hhit]

/-- Claim C1, witness: a first call on `"Hello"` (cache miss, model invoked)
followed by a call on `" hello "` (same normalized text) that returns the
cached result without consulting its own — failing — model oracle. -/
theorem claim_c1_witness :
    0 < NLLBTranslator.init.cache_size
    ∧ pyStrip "Hello" ≠ ""
    ∧ pyStrip " hello " ≠ ""
    ∧ pyLower (pyStrip "Hello") = pyLower (pyStrip " hello ")
    ∧ translate_text NLLBTranslator.init "Hello" "english" "hindi"
        (fun _ _ _ => Except.ok "namaste")
      = Except.ok
          ({ translation_cache := [("englishhindihello", "namaste")], cache_size := 500 },
            "namaste", true)
    ∧ translate_text
        { translation_cache := [("englishhindihello", "namaste")], cache_size := 500 }
        " hello " "english" "hindi" (fun _ _ _ => Except.error "down")
      = Except.ok
          ({ translation_cache := [("englishhindihello", "namaste")], cache_size := 500 },
            "namaste", false) :=
  ⟨by decide, by decide, by decide, by decide, by decide,
    claim_c1 NLLBTranslator.init "Hello" " hello " "english" "hindi"
      (fun _ _ _ => Except.ok "namaste") (fun _ _ _ => Except.error "down")
      { translation_cache := [("englishhindihello", "namaste")], cache_size := 500 }
      "namaste" true (by decide) (by decide) (by decide) (by decide) (by decide)⟩

/-! ## Claim C3 — cache bound and insertion-order eviction -/

theorem translate_text_cache_bound (tr : NLLBTranslator) (text src tgt : String)
    (model : String → String → String → Except String String)
    (res : NLLBTranslator × String × Bool)
    (h : translate_text tr text src tgt model = Except.ok res)
    (hle : tr.translation_cache.length ≤ tr.cache_size) :
    res.1.translation_cache.length ≤ tr.cache_size := by
  unfold translate_text at h
  by_cases hs : pyStrip text = ""
  · rw [if_pos hs] at h
    simp only [Except.ok.injEq] at h
    rw [← h]
    exact hle
  · rw [if_neg hs] at h
    cases hl : cacheLookup tr.translation_cache (cache_key src tgt text) with
    | some v =>
      rw [hl] at h
      simp only [Except.ok.injEq] at h
      rw [← h]
      exact hle
    | none =>
      rw [hl] at h
      cases hm : model text ((nllb_lang_map (pyLower src)).getD "eng_Latn")
          ((nllb_lang_map (pyLower tgt)).getD "hin_Deva") with
      | error e =>
        rw [hm] at h
        simp at h
      | ok translated =>
        rw [hm] at h
        simp only [Except.ok.injEq] at h
        rw [← h]
        exact cacheAdd_length_le tr.translation_cache tr.cache_size
          (cache_key src tgt text) translated hle

theorem foldl_cacheAdd_eviction (cs : Nat) (first : String × String)
    (rest : List (String × String))
    (hcs : 0 < cs) (hlen : rest.length = cs)
    (hnd : ((first :: rest).map Prod.fst).Nodup) :
    List.foldl (fun acc q => cacheAdd acc cs q.1 q.2) [] (first :: rest) = rest := by
  have hne : rest ≠ [] := by
    intro hh
    rw [hh] at hlen
    simp at hlen
    omega
  obtain ⟨ys, y, hys⟩ : ∃ ys y, rest = ys ++ [y] := by
    refine ⟨rest.dropLast, rest.getLast hne, ?_⟩
    rw [List.dropLast_append_getLast hne]
  subst hys
  rw [List.map_cons, List.nodup_cons] at hnd
  obtain ⟨hfirstnotin, hrestnd⟩ := hnd
  rw [List.map_append] at hrestnd
  have hysnd : (ys.map Prod.fst).Nodup := hrestnd.of_append_left
  have hdisj : (ys.map Prod.fst).Disjoint ([y].map Prod.fst) :=
    List.disjoint_of_nodup_append hrestnd
  have hfirstys : first.1 ∉ ys.map Prod.fst := by
    intro hh
    exact hfirstnotin (by rw [List.map_append]; exact List.mem_append_left _ hh)
  have hfirsty : first.1 ≠ y.1 := by
    intro hh
    apply hfirstnotin
    rw [List.map_append]
    exact List.mem_append_right _ (by simp [hh])
  have hyys : ∀ q ∈ ys, y.1 ≠ q.1 := by
    intro q hq hh
    have hqmem : q.1 ∈ ys.map Prod.fst := List.mem_map_of_mem Prod.fst hq
    have := hdisj hqmem
    simp only [List.map_cons, List.map_nil, List.mem_singleton] at this
    exact this hh.symm
  have hyslen : ys.length + 1 = cs := by
    simpa using hlen
  have hstep1 : cacheAdd [] cs first.1 first.2 = [first] := by
    have h0 := cacheAdd_of_lt [] cs first.1 first.2 rfl (by simp; omega)
    simpa using h0
  have hfold : List.foldl (fun acc q => cacheAdd acc cs q.1 q.2) [first] ys
      = first :: ys := by
    have hfr : ∀ q ∈ ys, cacheLookup [first] q.1 = none := by
      intro q hq
      apply cacheLookup_eq_none_of_not_mem
      intro hh
      simp only [List.map_cons, List.map_nil, List.mem_singleton] at hh
      exact hfirstys (hh ▸ List.mem_map_of_mem Prod.fst hq)
    have h0 := foldl_cacheAdd_of_le cs ys [first] (by simp; omega) hfr hysnd
    simpa using h0
  have hlast : cacheAdd (first :: ys) cs y.1 y.2 = ys ++ [y] := by
    have hfr : cacheLookup (first :: ys) y.1 = none := by
      apply cacheLookup_eq_none_of_not_mem
      simp only [List.map_cons, List.mem_cons, not_or]
      constructor
      · exact fun hh => hfirsty hh.symm
      · intro hh
        obtain ⟨q, hq, hqe⟩ := List.mem_map.mp hh
        exact hyys q hq hqe.symm
    have h0 := cacheAdd_of_full (first :: ys) cs y.1 y.2 hfr (by simp [hyslen]) hcs
    simpa using h0
  have hsplit : (first :: (ys ++ [y])) = (first :: ys) ++ [y] := by simp
  rw [hsplit, List.foldl_append]
  have hmid : List.foldl (fun acc q => cacheAdd acc cs q.1 q.2) [] (first :: ys)
      = first :: ys := by
    rw [List.foldl_cons]
    have : cacheAdd [] cs first.1 first.2 = [first] := hstep1
    rw [this, hfold]
  rw [hmid]
  simp only [List.foldl_cons, List.foldl_nil]
  exact hlast

/-- Claim C3: every successful `translate_text` call preserves the bound
`cache size ≤ cache_size` (whose default, set in `__init__`, is 500), and the
eviction discipline is strict insertion order: writing `cache_size + 1`
distinct keys into an empty cache leaves exactly the later `cache_size`
entries in insertion order — the first-inserted key is absent and every
later key is still present with its value. -/
theorem claim_c3 :
    (∀ (tr : NLLBTranslator) (text src tgt : String)
      (model : String → String → String → Except String String)
      (res : NLLBTranslator × String × Bool),
      translate_text tr text src tgt model = Except.ok res →
      tr.translation_cache.length ≤ tr.cache_size →
      res.1.translation_cache.length ≤ tr.cache_size)
    ∧ NLLBTranslator.init.cache_size = 500
    ∧ (∀ (cs : Nat) (first : String × String) (rest : List (String × String)),
      0 < cs → rest.length = cs →
      ((first :: rest).map Prod.fst).Nodup →
      List.foldl (fun acc q => cacheAdd acc cs q.1 q.2) [] (first :: rest) = rest
      ∧ cacheLookup
          (List.foldl (fun acc q => cacheAdd acc cs q.1 q.2) [] (first :: rest)) first.1
        = none
      ∧ ∀ q ∈ rest,
          cacheLookup
            (List.foldl (fun acc q => cacheAdd acc cs q.1 q.2) [] (first :: rest)) q.1
          = some q.2) := by
  refine ⟨translate_text_cache_bound, rfl, ?_⟩
  intro cs first rest hcs hlen hnd
  have hfold := foldl_cacheAdd_eviction cs first rest hcs hlen hnd
  simp only [List.map_cons, List.nodup_cons] at hnd
  refine ⟨hfold, ?_, ?_⟩
  · rw [hfold]
    exact cacheLookup_eq_none_of_not_mem rest first.1 hnd.1
  · intro q hq
    rw [hfold]
    exact cacheLookup_of_mem_nodup rest q hnd.2 hq

/-- Claim C3, witness: the bound part applied to a concrete miss on an empty
cache, and the eviction part applied with bound 2 and three distinct keys:
the first key is evicted, the two later ones remain. -/
theorem claim_c3_witness :
    (translate_text NLLBTranslator.init "hi" "english" "hindi"
        (fun _ _ _ => Except.ok "x")
      = Except.ok
          ({ translation_cache := [("englishhindihi", "x")], cache_size := 500 }, "x", true)
      ∧ NLLBTranslator.init.translation_cache.length ≤ NLLBTranslator.init.cache_size
      ∧ ({ translation_cache := [("englishhindihi", "x")], cache_size := 500 }
          : NLLBTranslator).translation_cache.length ≤ NLLBTranslator.init.cache_size)
    ∧ NLLBTranslator.init.cache_size = 500
    ∧ (0 < 2 ∧ ([("b", "2"), ("c", "3")] : List (String × String)).length = 2
      ∧ (((("a", "1") : String × String) :: [("b", "2"), ("c", "3")]).map Prod.fst).Nodup
      ∧ List.foldl (fun acc q => cacheAdd acc 2 q.1 q.2) []
          ((("a", "1") : String × String) :: [("b", "2"), ("c", "3")])
        = [("b", "2"), ("c", "3")]) :=
  ⟨⟨by decide, by decide,
      claim_c3.1 NLLBTranslator.init "hi" "english" "hindi" (fun _ _ _ => Except.ok "x")
        ({ translation_cache := [("englishhindihi", "x")], cache_size := 500 }, "x", true)
        (by decide) (by decide)⟩,
    claim_c3.2.1,
    by decide, by decide, by decide,
    (claim_c3.2.2 2 ("a", "1") [("b", "2"), ("c", "3")] (by decide) (by decide) (by decide)).1⟩

/-! ## History lemmas -/

theorem add_to_history_length_le (p : AudioProcessor) (st : SessionState)
    (o t ts : String)
    (h : st.translation_history.length ≤ st.max_history_items) :
    (add_to_history p st o t ts).translation_history.length ≤ st.max_history_items := by
  unfold add_to_history
  by_cases hgt : st.translation_history.length + 1 > st.max_history_items
  · simp [hgt]
    omega
  · simp [hgt]
    omega

theorem add_to_history_of_lt (p : AudioProcessor) (st : SessionState)
    (o t ts : String)
    (h : st.translation_history.length < st.max_history_items) :
    add_to_history p st o t ts
      = { st with translation_history :=
            mk_history_item p o t ts :: st.translation_history } := by
  unfold add_to_history
  have hng : ¬ (mk_history_item p o t ts :: st.translation_history).length
      > st.max_history_items := by
    simp only [List.length_cons]
    omega
  simp only [hng, if_false]

theorem add_to_history_of_full (p : AudioProcessor) (st : SessionState)
    (o t ts : String)
    (h : st.translation_history.length = st.max_history_items)
    (hm : 0 < st.max_history_items) :
    add_to_history p st o t ts
      = { st with translation_history :=
            mk_history_item p o t ts :: st.translation_history.dropLast } := by
  unfold add_to_history
  have hgt : (mk_history_item p o t ts :: st.translation_history).length
      > st.max_history_items := by
    simp only [List.length_cons]
    omega
  simp only [hgt, if_true]
  cases hh : st.translation_history with
  | nil =>
    rw [hh] at h
    simp at h
    omega
  | cons a as =>
    simp [List.dropLast]

theorem foldl_add_to_history_of_le (p : AudioProcessor) (ts : String)
    (ps : List (String × String)) :
    ∀ st : SessionState,
      st.translation_history.length + ps.length ≤ st.max_history_items →
      List.foldl (fun s q => add_to_history p s q.1 q.2 ts) st ps =
        { st with translation_history :=
            (ps.map (fun q => mk_history_item p q.1 q.2 ts)).reverse
              ++ st.translation_history } := by
  induction ps with
  | nil =>
    intro st _
    simp
  | cons q rest ih =>
    intro st hlen
    simp only [List.length_cons] at hlen
    rw [List.foldl_cons, add_to_history_of_lt p st q.1 q.2 ts (by omega)]
    rw [ih _ ?_]
    · simp
    · simp only [List.length_cons]
      omega

/-! ## Claim C5 — history bound and most-recent-first eviction -/

/-- Claim C5: every `add_to_history` call preserves the bound
`history length ≤ max_history_items` (whose default, set in
`get_session_state`, is 10), and inserting `max_history_items + 1` items into
an empty history leaves exactly `max_history_items` entries, the newest item
first and precisely the single oldest (first-inserted) item evicted. -/
theorem claim_c5 :
    (∀ (p : AudioProcessor) (st : SessionState) (o t ts : String),
      st.translation_history.length ≤ st.max_history_items →
      (add_to_history p st o t ts).translation_history.length ≤ st.max_history_items)
    ∧ get_session_state.max_history_items = 10
    ∧ (∀ (p : AudioProcessor) (ts : String) (m : Nat) (first y : String × String)
        (ys : List (String × String)),
      0 < m → (ys ++ [y]).length = m →
      (List.foldl (fun s q => add_to_history p s q.1 q.2 ts)
          { get_session_state with max_history_items := m }
          (first :: (ys ++ [y]))).translation_history
        = mk_history_item p y.1 y.2 ts
            :: (ys.map (fun q => mk_history_item p q.1 q.2 ts)).reverse
      ∧ (List.foldl (fun s q => add_to_history p s q.1 q.2 ts)
          { get_session_state with max_history_items := m }
          (first :: (ys ++ [y]))).translation_history.length = m) := by
  refine ⟨add_to_history_length_le, rfl, ?_⟩
  intro p ts m first y ys hm hlen
  have hyslen : ys.length + 1 = m := by
    simpa using hlen
  have hstep1 : add_to_history p (⟨"", "", 0, [], m⟩ : SessionState) first.1 first.2 ts
      = (⟨"", "", 0, [mk_history_item p first.1 first.2 ts], m⟩ : SessionState) := by
    have h0 := add_to_history_of_lt p (⟨"", "", 0, [], m⟩ : SessionState)
      first.1 first.2 ts (by simpa using hm)
    exact h0
  have hfold : List.foldl (fun s q => add_to_history p s q.1 q.2 ts)
      (⟨"", "", 0, [mk_history_item p first.1 first.2 ts], m⟩ : SessionState) ys
      = (⟨"", "", 0,
          (ys.map (fun q => mk_history_item p q.1 q.2 ts)).reverse
            ++ [mk_history_item p first.1 first.2 ts], m⟩ : SessionState) := by
    have h0 := foldl_add_to_history_of_le p ts ys
      (⟨"", "", 0, [mk_history_item p first.1 first.2 ts], m⟩ : SessionState)
      (by simp; omega)
    exact h0
  have hlast : add_to_history p
      (⟨"", "", 0,
        (ys.map (fun q => mk_history_item p q.1 q.2 ts)).reverse
          ++ [mk_history_item p first.1 first.2 ts], m⟩ : SessionState) y.1 y.2 ts
      = (⟨"", "", 0,
          mk_history_item p y.1 y.2 ts
            :: (ys.map (fun q => mk_history_item p q.1 q.2 ts)).reverse, m⟩
          : SessionState) := by
    have h0 := add_to_history_of_full p
      (⟨"", "", 0,
        (ys.map (fun q => mk_history_item p q.1 q.2 ts)).reverse
          ++ [mk_history_item p first.1 first.2 ts], m⟩ : SessionState) y.1 y.2 ts
      (by simp; omega) (by simpa using hm)
    rw [h0]
    simp
  have hwhole : List.foldl (fun s q => add_to_history p s q.1 q.2 ts)
      { get_session_state with max_history_items := m } (first :: (ys ++ [y]))
      = (⟨"", "", 0,
          mk_history_item p y.1 y.2 ts
            :: (ys.map (fun q => mk_history_item p q.1 q.2 ts)).reverse, m⟩
          : SessionState) := by
    rw [show ({ get_session_state with max_history_items := m } : SessionState)
          = (⟨"", "", 0, [], m⟩ : SessionState) from rfl]
    rw [show (first :: (ys ++ [y])) = (first :: ys) ++ [y] by simp]
    rw [List.foldl_append]
    have hmid : List.foldl (fun s q => add_to_history p s q.1 q.2 ts)
        (⟨"", "", 0, [], m⟩ : SessionState) (first :: ys)
        = (⟨"", "", 0,
            (ys.map (fun q => mk_history_item p q.1 q.2 ts)).reverse
              ++ [mk_history_item p first.1 first.2 ts], m⟩ : SessionState) := by
      rw [List.foldl_cons, hstep1, hfold]
    rw [hmid]
    simp only [List.foldl_cons, List.foldl_nil]
    exact hlast
  rw [hwhole]
  refine ⟨rfl, ?_⟩
  simp
  omega

/-- Claim C5, witness: the bound part applied at a concrete session state, and
the eviction part applied with bound 2 and three inserted items. -/
theorem claim_c5_witness :
    (get_session_state.translation_history.length ≤ get_session_state.max_history_items
      ∧ (add_to_history AudioProcessor.init get_session_state "hi" "namaste"
          "00:00:00").translation_history.length ≤ get_session_state.max_history_items)
    ∧ get_session_state.max_history_items = 10
    ∧ (0 < 2 ∧ (([("b", "B")] : List (String × String)) ++ [("c", "C")]).length = 2
      ∧ (List.foldl
          (fun s q => add_to_history AudioProcessor.init s q.1 q.2 "00:00:00")
          { get_session_state with max_history_items := 2 }
          (("a", "A") :: ([("b", "B")] ++ [("c", "C")]))).translation_history
        = mk_history_item AudioProcessor.init "c" "C" "00:00:00"
            :: ([("b", "B")].map
                (fun q => mk_history_item AudioProcessor.init q.1 q.2 "00:00:00")).reverse) :=
  ⟨⟨by decide,
      claim_c5.1 AudioProcessor.init get_session_state "hi" "namaste" "00:00:00" (by decide)⟩,
    claim_c5.2.1,
    by decide, by decide,
    (claim_c5.2.2 AudioProcessor.init "00:00:00" 2 ("a", "A") ("c", "C") [("b", "B")]
      (by decide) (by decide)).1⟩

/-! ## Claim C4 — empty-transcript no-op -/

/-- Claim C4: when the input file is present and loads, but the ASR step
yields an empty (or whitespace-only, hence stripped-to-empty) transcript,
`process_audio_file` returns the session state unchanged — transcription,
translation and history keep their pre-call values — with the non-error
terminal status `"connected"` on both the returned tuple and the processor. -/
theorem claim_c4 (p : AudioProcessor) (st : SessionState) (env : Env)
    (fp : Option String)
    (hfp : fp.getD "" ≠ "")
    (hload : env.load_ok = true)
    (hasr : speech_to_text
      { p.translator with source_lang := p.current_source_lang } env = "") :
    (process_audio_file p st env fp).state = st
    ∧ (process_audio_file p st env fp).status = "connected"
    ∧ (process_audio_file p st env fp).processor.status = "connected" := by
  unfold process_audio_file
  simp [hfp, hload, hasr]

/-- Claim C4, witness: concrete run in which ASR hears only whitespace; the
session state (including history) comes back untouched and the status is
`"connected"`. -/
theorem claim_c4_witness :
    (some "in.wav" : Option String).getD "" ≠ ""
    ∧ demoEnvWhitespace.load_ok = true
    ∧ speech_to_text
        { AudioProcessor.init.translator with
            source_lang := AudioProcessor.init.current_source_lang } demoEnvWhitespace = ""
    ∧ (process_audio_file AudioProcessor.init get_session_state demoEnvWhitespace
        (some "in.wav")).state = get_session_state
    ∧ (process_audio_file AudioProcessor.init get_session_state demoEnvWhitespace
        (some "in.wav")).status = "connected" :=
  ⟨by decide, by decide, by decide,
    (claim_c4 AudioProcessor.init get_session_state demoEnvWhitespace (some "in.wav")
      (by decide) (by decide) (by decide)).1,
    (claim_c4 AudioProcessor.init get_session_state demoEnvWhitespace (some "in.wav")
      (by decide) (by decide) (by decide)).2.1⟩

/-! ## Claim C6 — failed TTS format conversion -/

/-- Claim C6, counterexample: in `demoEnv` speech synthesis produces
`out.mp3` (which exists), the `ffmpeg` conversion to WAV fails, and — because
the conversion runs with `check=True` inside the handler `try` — the raised
error takes the call to the error path: status `"error"` and no artifact,
rather than completing with the pre-conversion `out.mp3`. -/
theorem claim_c6_counterexample :
    demoEnv.tts_file "namaste" "hindi" = some "out.mp3"
    ∧ demoEnv.file_exists "out.mp3" = true
    ∧ demoEnv.ffmpeg_ok = false
    ∧ (process_audio_file AudioProcessor.init get_session_state demoEnv
        (some "in.wav")).status = "error"
    ∧ (process_audio_file AudioProcessor.init get_session_state demoEnv
        (some "in.wav")).tts_out = none := by
  decide

/-- Claim C6 (amended): when the synthesized artifact needs conversion, a
failing transcoder invocation (`check=True`) raises and the call takes the
error path returning no artifact; only when the transcoder invocation
succeeds but the converted file is absent does the call complete successfully
with the pre-conversion artifact. -/
theorem claim_c6 (p : AudioProcessor) (st : SessionState) (env : Env)
    (fp : Option String) (t trtext : String) (ntr : NLLBTranslator) (b : Bool)
    (f : String)
    (hfp : fp.getD "" ≠ "")
    (hload : env.load_ok = true)
    (ht : speech_to_text
      { p.translator with source_lang := p.current_source_lang } env = t)
    (ht1 : t ≠ "") (ht2 : pyStrip t ≠ "")
    (htr : translate_text p.translator.translator t p.current_source_lang
      p.translator.target_lang env.nllb_model = Except.ok (ntr, trtext, b))
    (htts : env.tts_file trtext p.translator.target_lang = some f)
    (hf : f ≠ "") (hexists : env.file_exists f = true)
    (hwav : pyEndsWith f ".wav" = false) :
    (env.ffmpeg_ok = false →
      (process_audio_file p st env fp).status = "error"
      ∧ (process_audio_file p st env fp).tts_out = none)
    ∧ (env.ffmpeg_ok = true →
      env.file_exists (pyReplace f ".mp3" ".wav") = false →
      (process_audio_file p st env fp).status = "connected"
      ∧ (process_audio_file p st env fp).tts_out = some f) := by
  constructor
  · intro hff
    unfold process_audio_file
    simp [hfp, hload, ht, ht1, ht2, htr, htts, hf, hexists, hwav, hff]
  · intro hff hwx
    unfold process_audio_file
    simp [hfp, hload, ht, ht1, ht2, htr, htts, hf, hexists, hwav, hff, hwx]

/-- Claim C6, witness: the amended theorem applied to the concrete `demoEnv`
run (failing transcoder branch). -/
theorem claim_c6_witness :
    (some "in.wav" : Option String).getD "" ≠ ""
    ∧ demoEnv.load_ok = true
    ∧ speech_to_text
        { AudioProcessor.init.translator with
            source_lang := AudioProcessor.init.current_source_lang } demoEnv = "hello"
    ∧ ("hello" : String) ≠ ""
    ∧ pyStrip "hello" ≠ ""
    ∧ translate_text AudioProcessor.init.translator.translator "hello"
        AudioProcessor.init.current_source_lang
        AudioProcessor.init.translator.target_lang demoEnv.nllb_model
      = Except.ok
          ({ translation_cache := [("englishhindihello", "namaste")], cache_size := 500 },
            "namaste", true)
    ∧ demoEnv.tts_file "namaste" AudioProcessor.init.translator.target_lang
      = some "out.mp3"
    ∧ ("out.mp3" : String) ≠ ""
    ∧ demoEnv.file_exists "out.mp3" = true
    ∧ pyEndsWith "out.mp3" ".wav" = false
    ∧ demoEnv.ffmpeg_ok = false
    ∧ (process_audio_file AudioProcessor.init get_session_state demoEnv
        (some "in.wav")).status = "error"
    ∧ (process_audio_file AudioProcessor.init get_session_state demoEnv
        (some "in.wav")).tts_out = none :=
  ⟨by decide, by decide, by decide, by decide, by decide, by decide, by decide,
    by decide, by decide, by decide, by decide,
    ((claim_c6 AudioProcessor.init get_session_state demoEnv (some "in.wav")
      "hello" "namaste"
      { translation_cache := [("englishhindihello", "namaste")], cache_size := 500 }
      true "out.mp3" (by decide) (by decide) (by decide) (by decide) (by decide)
      (by decide) (by decide) (by decide) (by decide) (by decide)).1 (by decide)).1,
    ((claim_c6 AudioProcessor.init get_session_state demoEnv (some "in.wav")
      "hello" "namaste"
      { translation_cache := [("englishhindihello", "namaste")], cache_size := 500 }
      true "out.mp3" (by decide) (by decide) (by decide) (by decide) (by decide)
      (by decide) (by decide) (by decide) (by decide) (by decide)).1 (by decide)).2⟩

/-! ## Claim C8 — temporary extracted-audio cleanup -/

/-- Claim C8, counterexample: in `process_video_file` the extraction command
runs with `check=True` inside the `try`, before the unlink; when extraction
fails, the handler jumps to the `except` branch and the temporary
extracted-audio file — created on disk by `NamedTemporaryFile(delete=False)`
and still existing per the environment — is never deleted. -/
theorem claim_c8_counterexample :
    demoEnvNoExtract.temp_wav_path = "tmp.wav"
    ∧ demoEnvNoExtract.file_exists "tmp.wav" = true
    ∧ "tmp.wav" ∉ (process_video_file AudioProcessor.init get_session_state
        demoEnvNoExtract (some "v.mp4")).deleted := by
  decide

/-- Claim C8 (amended): whenever audio-track extraction succeeds (and the
temporary file exists), `process_video_file` deletes the temporary
extracted-audio file before returning, regardless of the outcome of the
delegated `process_audio_file` call (which catches its own exceptions); when
extraction itself fails, the temporary file is leaked. -/
theorem claim_c8 (p : AudioProcessor) (st : SessionState) (env : Env)
    (fp : Option String)
    (hfp : fp.getD "" ≠ "")
    (hex : env.extract_ok = true)
    (hfile : env.file_exists env.temp_wav_path = true) :
    env.temp_wav_path ∈ (process_video_file p st env fp).deleted := by
  unfold process_video_file
  simp [hfp, hex, hfile]

/-- Claim C8, witness: the amended theorem applied to a concrete video run
(the delegated audio call here ends in the transcoding-error path, yet the
temporary file is deleted). -/
theorem claim_c8_witness :
    (some "v.mp4" : Option String).getD "" ≠ ""
    ∧ demoEnv.extract_ok = true
    ∧ demoEnv.file_exists demoEnv.temp_wav_path = true
    ∧ demoEnv.temp_wav_path ∈ (process_video_file AudioProcessor.init
        get_session_state demoEnv (some "v.mp4")).deleted :=
  ⟨by decide, by decide, by decide,
    claim_c8 AudioProcessor.init get_session_state demoEnv (some "v.mp4")
      (by decide) (by decide) (by decide)⟩

end S2ST
